import Mathlib

set_option maxRecDepth 8000

/-!
Shallow embedding of the admission-and-reliable-delivery pipeline of the
scraper repository: the IP access ledger and gate
(src/services/ip-access.service.ts, src/middleware/ip-access.ts), the
queue service (src/services/queue-service.ts), the webhook notifier
(src/services/webhook.service.ts and the inline copy in the server entry
point), and the route middleware pipelines (src/routes/article.routes.ts,
novel routes).
-/

namespace Scraper

/-! ## Access Ledger data model (src/services/ip-access.service.ts, Prisma model `ipAccess`) -/

/-- IP status enum, from `export type IpStatus = 'PENDING' | 'WHITELIST' | 'BLACKLIST'`. -/
inductive IpStatus where
  | PENDING
  | WHITELIST
  | BLACKLIST
deriving DecidableEq, Repr

/-- One `ipAccess` row. Timestamps are modelled as `Nat` instants; `approvedAt`
is optional (null until a Whitelist transition stamps it). -/
structure IpEntry where
  id : String
  ip : String
  status : IpStatus
  note : Option String
  requestedAt : Nat
  approvedAt : Option Nat
deriving DecidableEq, Repr

/-- The fixed phrase set returned to blacklisted IPs, verbatim from
src/middleware/ip-access.ts (`BLACKLIST_QUOTES`). -/
def BLACKLIST_QUOTES : List String :=
  [ "Diam sejenak, dan renungkan langkahmu.",
    "Mutiara hati tak tumbuh di lautan kebencian.",
    "Jalan yang tenang memberi waktu untuk berubah.",
    "Setiap jiwa berhak atas kesempatan kedua.",
    "Hidup adalah perjalanan menuju pencerahan.",
    "Janganlah terlalu dekat dengan keadaan yang buruk.",
    "Hati yang keras perlu kelembutan untuk berubah.",
    "Dalam keheningan, kita menemukan diri sejati.",
    "Setiap tindakan membawa konsekuensi, pilihlah dengan bijak.",
    "Biarkan waktu menjadi guru terbaikmu." ]

/-- `pickQuote` from src/middleware/ip-access.ts:
`BLACKLIST_QUOTES[Math.floor(Math.random() * BLACKLIST_QUOTES.length)]`.
The random draw `Math.floor(Math.random() * length)` always lands in
`[0, length)`, so it is modelled as a `Fin BLACKLIST_QUOTES.length` input. -/
def pickQuote (r : Fin BLACKLIST_QUOTES.length) : String :=
  BLACKLIST_QUOTES.get r

/-- Rejection body for an IP with no ledger record (ip-access.ts line 33). -/
def needsApprovalMsg : String :=
  "Your IP needs approval. Please POST /api/ip/request to request whitelist."

/-- Rejection body for a PENDING IP (ip-access.ts line 37). -/
def waitingApprovalMsg : String :=
  "Your IP is waiting approval."

/-- Outcome of the IP access middleware for one request: either the response
is ended with an HTTP status and error/message body, or `next()` is called. -/
inductive IpGateOutcome where
  | deny (httpStatus : Nat) (body : String)
  | pass
deriving DecidableEq, Repr

/-- The decision taken on a successful ledger lookup, translated from the
body of `ipAccessMiddleware` (src/middleware/ip-access.ts lines 29-45):
no entry rejects with the request-access instruction, PENDING rejects with
the waiting-approval message, BLACKLIST rejects with a random quote, and
the remaining status (WHITELIST) falls through to `next()`. -/
def ipAccessDecision (entry : Option IpEntry) (r : Fin BLACKLIST_QUOTES.length) :
    IpGateOutcome :=
  match entry with
  | none => .deny 403 needsApprovalMsg
  | some e =>
    match e.status with
    | .PENDING => .deny 403 waitingApprovalMsg
    | .BLACKLIST => .deny 403 (pickQuote r)
    | .WHITELIST => .pass

/-- The full middleware run including the surrounding try/catch
(ip-access.ts lines 23-50): the ledger lookup `ipAccessService.getByIp(ip)`
may fail, and the catch block calls `next()` (fail open). -/
def ipAccessMiddlewareRun (lookup : Except String (Option IpEntry))
    (r : Fin BLACKLIST_QUOTES.length) : IpGateOutcome :=
  match lookup with
  | .error _ => .pass
  | .ok entry => ipAccessDecision entry r

/-! ## IpAccessService (src/services/ip-access.service.ts) -/

/-- The ledger table, one row per IP (the Prisma `ipAccess` table). -/
abbrev Ledger : Type := List IpEntry

/-- `prisma.ipAccess.findUnique({ where: { ip } })`. -/
def findUniqueIp (l : Ledger) (ip : String) : Option IpEntry :=
  List.find? (fun e => e.ip == ip) l

/-- Modelled from the spec: `prisma.ipAccess.create({ data: { ip, note } })`,
whose remaining columns come from the Prisma schema defaults (the schema file
is not under src/): the spec says a created entry has status Pending and
`requestedAt` set on creation, with `approvedAt` unset. -/
def createEntry (now : Nat) (newId ip : String) (note : Option String) : IpEntry :=
  { id := newId, ip := ip, status := .PENDING, note := note,
    requestedAt := now, approvedAt := none }

/-- `IpAccessService.requestIp` (ip-access.service.ts lines 6-15): look the IP
up; if a row exists return it (ledger untouched), else create a fresh Pending
row. Returns the entry together with the resulting ledger state. -/
def requestIp (l : Ledger) (now : Nat) (newId ip : String) (note : Option String) :
    IpEntry × Ledger :=
  match findUniqueIp l ip with
  | some existing => (existing, l)
  | none =>
    let e := createEntry now newId ip note
    (e, l ++ [e])

/-- `IpAccessService.updateStatus` (ip-access.service.ts lines 25-29) applied
to the row found by id: the update data is `{ status }`, extended with
`approvedAt = new Date()` exactly when the new status is WHITELIST; Prisma
leaves every column not named in `data` unchanged. -/
def updateStatus (e : IpEntry) (s : IpStatus) (now : Nat) : IpEntry :=
  if s = .WHITELIST then { e with status := s, approvedAt := some now }
  else { e with status := s }

/-! ## Queue service (src/services/queue-service.ts) -/

/-- Options passed to `channel.assertQueue` in `QueueService.connect`
(queue-service.ts lines 68-70). The source object literal sets only
`durable: true`; the remaining amqplib options (dead-letter exchange,
dead-letter routing key, extra arguments) are absent, i.e. undefined. -/
structure AssertQueueOptions where
  durable : Bool := false
  deadLetterExchange : Option String := none
  deadLetterRoutingKey : Option String := none
  arguments : List (String × String) := []
deriving DecidableEq, Repr

/-- The options actually used for the `article_generation` queue:
`{ durable: true }` and nothing else. -/
def articleQueueOptions : AssertQueueOptions :=
  { durable := true }

/-- Fate of a message the consumer rejects with requeue=false.
Modelled from the spec: broker dead-lettering routes a rejected message to
the queue's configured dead-letter exchange when one is declared, otherwise
the broker drops the message permanently (spec glossary: "Dead-letter:
terminal drop of a job after exhausting retries, with no further
processing"). -/
inductive RejectedFate where
  | deadLettered (exchange : String)
  | dropped
deriving DecidableEq, Repr

/-- Where a message rejected with requeue=false on a queue declared with the
given options ends up. -/
def rejectedFate (opts : AssertQueueOptions) : RejectedFate :=
  match opts.deadLetterExchange with
  | some ex => .deadLettered ex
  | none => .dropped

/-- Message headers as read by the consumer; the source reads
`msg.properties.headers?.['x-retry-count']` as a number. An absent headers
object is modelled as the empty association list. -/
abbrev MsgHeaders : Type := List (String × Nat)

/-- The retry count the consumer computes
(`(msg.properties.headers?.['x-retry-count'] || 0) as number`,
queue-service.ts line 180). -/
def getRetryCount (hdrs : MsgHeaders) : Nat :=
  (hdrs.lookup "x-retry-count").getD 0

/-- Publish options used by `publishArticleJob`
(queue-service.ts lines 108-112): `persistent: true`, `messageId: jobId`,
`timestamp: Date.now()`. No `headers` key is passed, so a freshly published
message carries no `x-retry-count` header. -/
structure PublishOptions where
  persistent : Bool
  messageId : String
  timestamp : Nat
  headers : MsgHeaders := []
deriving DecidableEq, Repr

/-- The options of a message published by `publishArticleJob`. -/
def articlePublishOptions (jobId : String) (now : Nat) : PublishOptions :=
  { persistent := true, messageId := jobId, timestamp := now }

/-- The channel action the consumer takes on a message
(queue-service.ts lines 167-196). -/
inductive ConsumerAction where
  | ackMsg
  | requeueAfter (delayMs : Nat)
  | reject
deriving DecidableEq, Repr

/-- The failure branch of the consume callback (queue-service.ts lines
180-196): read the retry count; if it is below 3, schedule
`channel.nack(msg, false, true)` after `Math.pow(2, retryCount) * 1000`
milliseconds, else `channel.nack(msg, false, false)`. -/
def failureDecision (hdrs : MsgHeaders) : ConsumerAction :=
  let retryCount := getRetryCount hdrs
  if retryCount < 3 then .requeueAfter (2 ^ retryCount * 1000)
  else .reject

/-- The full per-message decision of the consume callback: handler success
acks (line 170), handler failure takes the retry branch. -/
def consumerStep (handlerResult : Except String Unit) (hdrs : MsgHeaders) :
    ConsumerAction :=
  match handlerResult with
  | .ok _ => .ackMsg
  | .error _ => failureDecision hdrs

/-- Headers of the message the broker redelivers after
`channel.nack(msg, false, true)`. The source nacks the original `msg`
(queue-service.ts line 189) and performs no publish of a modified copy;
AMQP basic.nack with requeue returns that same message, application headers
untouched, so redelivery carries the headers unchanged. -/
def requeuedHeaders (hdrs : MsgHeaders) : MsgHeaders := hdrs

/-- Headers observed at the n-th consecutive failed delivery of a job
published by `publishArticleJob` (which sets no headers), each earlier
failure having gone through the delayed-requeue branch. -/
def headersAfterFailures : Nat → MsgHeaders
  | 0 => (articlePublishOptions "job" 0).headers
  | n + 1 => requeuedHeaders (headersAfterFailures n)

/-! ## Job id generation (queue-service.ts line 92)
`const jobId = ` + "article-" + Date.now() + "-" +
`Math.random().toString(36).substring(7)`. The timestamp renders in decimal;
the random suffix consists of base-36 digit characters only. -/

/-- Decimal digit values of a natural number, most significant first
(the rendering of `${Date.now()}` in the template literal). -/
def natDecDigits (n : Nat) : List Nat :=
  if n < 10 then [n]
  else natDecDigits (n / 10) ++ [n % 10]
termination_by n
decreasing_by exact Nat.div_lt_self (by omega) (by omega)

/-- A decimal digit value as a character. -/
def digitChar (d : Nat) : Char := Char.ofNat (48 + d)

/-- The characters of the base-36 alphabet produced by
`Math.random().toString(36)` after the `0.` prefix; `substring(7)` keeps
only such characters (possibly none). -/
def base36Chars : List Char := "0123456789abcdefghijklmnopqrstuvwxyz".data

/-- The job id as a character list:
`"article-" + decimal timestamp + "-" + random suffix`. -/
def makeJobIdChars (t : Nat) (suffix : List Char) : List Char :=
  "article-".data ++ (natDecDigits t).map digitChar ++ '-' :: suffix

/-- The job id string returned by `publishArticleJob`, as a function of the
observed `Date.now()` value and the observed random suffix. -/
def makeJobId (t : Nat) (suffix : String) : String :=
  String.mk (makeJobIdChars t suffix.data)

/-! ## Public generation endpoints: middleware pipeline
(src/routes/article.routes.ts line 71 and the novel routes file line 289).
Express runs route middlewares in the order they are listed. -/

/-- The stages a public generation request passes through, in source order. -/
inductive MwStage where
  | ipAccessCheck
  | rateLimitCheck
  | routeHandler
deriving DecidableEq, Repr

/-- Middleware order of `POST /api/articles/generate-public`
(article.routes.ts line 71):
`ipAccessMiddleware(), rateLimit({ windowMs: 60_000, max: 5 }), handler`. -/
def generatePublicPipeline : List MwStage :=
  [.ipAccessCheck, .rateLimitCheck, .routeHandler]

/-- Middleware order of `POST /api/novels/generate` (novel routes line 289):
`ipAccessMiddleware(), rateLimit({ windowMs: 60_000, max: 2 }), handler`. -/
def novelGeneratePipeline : List MwStage :=
  [.ipAccessCheck, .rateLimitCheck, .routeHandler]

/-- Modelled from the spec: the rate-limit middleware
(src/middleware/rate-limit.ts is not under src/; only its call sites are).
Per the spec it is a per-IP window of at most `maxReq` requests per 60 s:
a request arriving when `windowCount` requests were already made in the
current window is rejected exactly when the limit is reached. -/
def rateLimitExceeded (windowCount maxReq : Nat) : Bool :=
  maxReq ≤ windowCount

/-- Final outcome of the admission pipeline for one request. -/
inductive AdmissionOutcome where
  | ipRejected (body : String)
  | rateLimited
  | queued
deriving DecidableEq, Repr

/-- Observable effects of running the admission pipeline once. -/
structure AdmissionTrace where
  outcome : AdmissionOutcome
  ledgerLookups : Nat
  brokerPublishes : Nat
deriving DecidableEq, Repr

/-- One request through a public generation endpoint, following the source
middleware order: `ipAccessMiddleware` runs first and always performs the
ledger lookup `ipAccessService.getByIp(ip)` (counted even when it errors);
only if it calls `next()` does the rate-limit middleware run; only if the
rate limit passes does the handler publish to the broker. -/
def runPublicGenerate (lookup : Except String (Option IpEntry))
    (r : Fin BLACKLIST_QUOTES.length) (windowCount maxReq : Nat) :
    AdmissionTrace :=
  match ipAccessMiddlewareRun lookup r with
  | .deny _ body =>
    { outcome := .ipRejected body, ledgerLookups := 1, brokerPublishes := 0 }
  | .pass =>
    if rateLimitExceeded windowCount maxReq then
      { outcome := .rateLimited, ledgerLookups := 1, brokerPublishes := 0 }
    else
      { outcome := .queued, ledgerLookups := 1, brokerPublishes := 1 }

/-- A whitelisted ledger entry used to exercise the pipeline. -/
def whitelistedEntry : IpEntry :=
  { id := "ckx1", ip := "203.0.113.7", status := .WHITELIST, note := none,
    requestedAt := 100, approvedAt := some 200 }

/-! ## Worker: processArticleJob (server entry point) and the webhook notifier
(src/services/webhook.service.ts) -/

/-- The generated article record, as far as the worker consumes it. -/
structure Article where
  id : String
  title : String
  wordCount : Nat
deriving DecidableEq, Repr

/-- Outcome of the webhook HTTP POST (`axios.post(url, body, { headers,
timeout: 10000 })`): axios resolves on a 2xx response and throws on
timeout, non-2xx status, or a network/connection error. -/
inductive WebhookHttpOutcome where
  | success
  | timeout
  | non2xx (code : Nat)
  | networkError (msg : String)
deriving DecidableEq, Repr

/-- What `processArticleJob` did for one job. -/
structure JobProcessOutcome where
  result : Except String Unit
  webhookAttempted : Bool
  webhookDelivered : Bool
deriving Repr

/-- `processArticleJob` from the server entry point (the queue handler):
a generator failure is rethrown (so the consumer's catch path runs); on
generator success, if a webhook URL is present the POST is attempted inside
a try/catch whose catch only logs — the function returns normally whatever
the HTTP outcome, so webhook failure never reaches the consumer. -/
def processArticleJob (gen : Except String Article)
    (webhookUrl : Option String) (http : WebhookHttpOutcome) :
    JobProcessOutcome :=
  match gen with
  | .error e =>
    { result := .error e, webhookAttempted := false, webhookDelivered := false }
  | .ok _ =>
    match webhookUrl with
    | none =>
      { result := .ok (), webhookAttempted := false, webhookDelivered := false }
    | some _ =>
      match http with
      | .success =>
        { result := .ok (), webhookAttempted := true, webhookDelivered := true }
      | _ =>
        { result := .ok (), webhookAttempted := true, webhookDelivered := false }

/-! ## HMAC-SHA256 (reference implementation)
The source computes the webhook signature with the platform crypto library:
`crypto.createHmac('sha256', secret).update(bodyString).digest('hex')`
(webhook.service.ts line 13 and the identical inline copy in the worker).
The library is external, so HMAC-SHA256 is embedded here from its standard
(FIPS 180-4 / RFC 2104), byte-level, over `Nat` with explicit 32-bit
masking; it is validated below against an independently computed reference
value. -/

/-- Truncation to a 32-bit word. -/
def w32 (x : Nat) : Nat := x % 4294967296

/-- 32-bit right rotation. -/
def rotr32 (n x : Nat) : Nat := w32 ((x >>> n) ||| (x <<< (32 - n)))

/-- SHA-256 Ch function; 32-bit not is xor with the all-ones word. -/
def shaCh (x y z : Nat) : Nat := (x &&& y) ^^^ ((x ^^^ 4294967295) &&& z)

/-- SHA-256 Maj function. -/
def shaMaj (x y z : Nat) : Nat := (x &&& y) ^^^ (x &&& z) ^^^ (y &&& z)

/-- SHA-256 big sigma 0. -/
def bsig0 (x : Nat) : Nat := rotr32 2 x ^^^ rotr32 13 x ^^^ rotr32 22 x

/-- SHA-256 big sigma 1. -/
def bsig1 (x : Nat) : Nat := rotr32 6 x ^^^ rotr32 11 x ^^^ rotr32 25 x

/-- SHA-256 small sigma 0. -/
def ssig0 (x : Nat) : Nat := rotr32 7 x ^^^ rotr32 18 x ^^^ (x >>> 3)

/-- SHA-256 small sigma 1. -/
def ssig1 (x : Nat) : Nat := rotr32 17 x ^^^ rotr32 19 x ^^^ (x >>> 10)

/-- The 64 SHA-256 round constants (FIPS 180-4, written in decimal). -/
def sha256K : List Nat :=
  [ 1116352408, 1899447441, 3049323471, 3921009573, 961987163,
    1508970993, 2453635748, 2870763221, 3624381080, 310598401,
    607225278, 1426881987, 1925078388, 2162078206, 2614888103,
    3248222580, 3835390401, 4022224774, 264347078, 604807628,
    770255983, 1249150122, 1555081692, 1996064986, 2554220882,
    2821834349, 2952996808, 3210313671, 3336571891, 3584528711,
    113926993, 338241895, 666307205, 773529912, 1294757372,
    1396182291, 1695183700, 1986661051, 2177026350, 2456956037,
    2730485921, 2820302411, 3259730800, 3345764771, 3516065817,
    3600352804, 4094571909, 275423344, 430227734, 506948616,
    659060556, 883997877, 958139571, 1322822218, 1537002063,
    1747873779, 1955562222, 2024104815, 2227730452, 2361852424,
    2428436474, 2756734187, 3204031479, 3329325298 ]

/-- SHA-256 padding: append 0x80, zero bytes to 56 mod 64, then the bit
length as 8 big-endian bytes. -/
def padMessage (msg : List Nat) : List Nat :=
  let len := msg.length
  let zeros := (120 - (len + 1) % 64) % 64
  let bitLen := len * 8
  msg ++ 0x80 :: List.replicate zeros 0
      ++ (List.range 8).map (fun i => (bitLen >>> (8 * (7 - i))) % 256)

/-- Accumulator loop splitting a byte list into 64-byte blocks; `acc` holds
the current partial block in reverse. -/
def chunk64Aux : List Nat → List Nat → List (List Nat)
  | [], acc => if acc = [] then [] else [acc.reverse]
  | b :: rest, acc =>
    if acc.length = 63 then (b :: acc).reverse :: chunk64Aux rest []
    else chunk64Aux rest (b :: acc)

/-- Split a byte list into 64-byte blocks. -/
def chunk64 (bs : List Nat) : List (List Nat) := chunk64Aux bs []

/-- Big-endian 4-byte groups to 32-bit words. -/
def bytesToWords : List Nat → List Nat
  | a :: b :: c :: d :: rest =>
    ((a <<< 24) ||| (b <<< 16) ||| (c <<< 8) ||| d) :: bytesToWords rest
  | _ => []

/-- Extend 16 message words to the 64-entry schedule. -/
def extendSchedule (ws : List Nat) : List Nat :=
  ((List.range 48).foldl
    (fun (arr : Array Nat) i =>
      let t := i + 16
      arr.push (w32 (ssig1 (arr.get! (t - 2)) + arr.get! (t - 7)
        + ssig0 (arr.get! (t - 15)) + arr.get! (t - 16))))
    ws.toArray).toList

/-- SHA-256 working state. -/
structure Sha256State where
  a : Nat
  b : Nat
  c : Nat
  d : Nat
  e : Nat
  f : Nat
  g : Nat
  h : Nat
deriving DecidableEq, Repr

/-- One SHA-256 round. -/
def compressStep (st : Sha256State) (kw : Nat × Nat) : Sha256State :=
  let t1 := w32 (st.h + bsig1 st.e + shaCh st.e st.f st.g + kw.1 + kw.2)
  let t2 := w32 (bsig0 st.a + shaMaj st.a st.b st.c)
  ⟨w32 (t1 + t2), st.a, st.b, st.c, w32 (st.d + t1), st.e, st.f, st.g⟩

/-- Compress one 64-byte block into the chaining value. -/
def compressBlock (hv : Sha256State) (block : List Nat) : Sha256State :=
  let ws := extendSchedule (bytesToWords block)
  let st := (sha256K.zip ws).foldl compressStep hv
  ⟨w32 (hv.a + st.a), w32 (hv.b + st.b), w32 (hv.c + st.c), w32 (hv.d + st.d),
   w32 (hv.e + st.e), w32 (hv.f + st.f), w32 (hv.g + st.g), w32 (hv.h + st.h)⟩

/-- SHA-256 initial hash value (FIPS 180-4, written in decimal). -/
def sha256Init : Sha256State :=
  ⟨1779033703, 3144134277, 1013904242, 2773480762,
   1359893119, 2600822924, 528734635, 1541459225⟩

/-- A 32-bit word as 4 big-endian bytes. -/
def wordBytesBE (w : Nat) : List Nat :=
  [(w >>> 24) % 256, (w >>> 16) % 256, (w >>> 8) % 256, w % 256]

/-- SHA-256 of a byte list. -/
def sha256 (msg : List Nat) : List Nat :=
  let cv := (chunk64 (padMessage msg)).foldl compressBlock sha256Init
  wordBytesBE cv.a ++ wordBytesBE cv.b ++ wordBytesBE cv.c ++ wordBytesBE cv.d
    ++ wordBytesBE cv.e ++ wordBytesBE cv.f ++ wordBytesBE cv.g ++ wordBytesBE cv.h

/-- HMAC-SHA256 over byte lists (RFC 2104, block size 64). -/
def hmacSha256 (key msg : List Nat) : List Nat :=
  let k0 := if 64 < key.length then sha256 key else key
  let kpad := k0 ++ List.replicate (64 - k0.length) 0
  let ipadKey := kpad.map (fun b => b ^^^ 0x36)
  let opadKey := kpad.map (fun b => b ^^^ 0x5c)
  sha256 (opadKey ++ sha256 (ipadKey ++ msg))

/-- UTF-8 encoding of one character, as byte values. -/
def utf8CharBytes (c : Char) : List Nat :=
  let n := c.toNat
  if n < 0x80 then [n]
  else if n < 0x800 then
    [0xc0 ||| (n >>> 6), 0x80 ||| (n &&& 0x3f)]
  else if n < 0x10000 then
    [0xe0 ||| (n >>> 12), 0x80 ||| ((n >>> 6) &&& 0x3f), 0x80 ||| (n &&& 0x3f)]
  else
    [0xf0 ||| (n >>> 18), 0x80 ||| ((n >>> 12) &&& 0x3f),
     0x80 ||| ((n >>> 6) &&& 0x3f), 0x80 ||| (n &&& 0x3f)]

/-- UTF-8 bytes of a string (what `crypto.update` and the HTTP body carry). -/
def strBytes (s : String) : List Nat :=
  (s.data.map utf8CharBytes).flatten

/-- Lower-case hex digit for a value below 16. -/
def hexChar (n : Nat) : Char :=
  if n < 10 then Char.ofNat (48 + n) else Char.ofNat (87 + n)

/-- Lower-case hex encoding of a byte list (`digest('hex')`). -/
def bytesToHex (bs : List Nat) : String :=
  String.mk (bs.foldr (fun b acc => hexChar (b / 16) :: hexChar (b % 16) :: acc) [])

/-- Hex HMAC-SHA256 of a message string under a secret string, both UTF-8:
`crypto.createHmac('sha256', secret).update(msg).digest('hex')`. -/
def hmacSha256Hex (secret msg : String) : String :=
  bytesToHex (hmacSha256 (strBytes secret) (strBytes msg))

/-- The HTTP request assembled by `WebhookService.sendWebhook`
(webhook.service.ts lines 5-21): `bodyString = JSON.stringify(payload)` is
computed once; when a secret is present the `X-Webhook-Signature` header is
the hex HMAC-SHA256 of that same `bodyString`, which is also the POST body. -/
structure WebhookRequest where
  url : String
  contentType : String
  signature : Option String
  typeHeader : Option String
  body : String
deriving DecidableEq, Repr

/-- `sendWebhook`, as a function of the serialized body string
(`JSON.stringify(payload)` evaluated at entry, webhook.service.ts line 7). -/
def sendWebhookRequest (url : String) (secret : Option String)
    (tp : Option String) (bodyString : String) : WebhookRequest :=
  { url := url,
    contentType := "application/json",
    signature := secret.map (fun s => hmacSha256Hex s bodyString),
    typeHeader := tp,
    body := bodyString }

/-! ## Theorems -/

/-- Every blacklist quote differs from the waiting-approval message. -/
lemma pickQuote_ne_waiting : ∀ r : Fin BLACKLIST_QUOTES.length,
    pickQuote r ≠ waitingApprovalMsg := by decide

/-- A picked quote is drawn from the fixed phrase set. -/
lemma pickQuote_mem : ∀ r : Fin BLACKLIST_QUOTES.length,
    pickQuote r ∈ BLACKLIST_QUOTES := by decide

/-- C3: the IP gate's decision is exactly: no ledger entry rejects with the
instruction to submit an access request; a Pending entry rejects with the
waiting-approval message; a Blacklist entry rejects with a message from the
fixed phrase set, never the waiting-approval message; a Whitelist entry is
admitted. -/
theorem ipGate_decision_exact :
    ∀ (r : Fin BLACKLIST_QUOTES.length) (idv ipv : String) (note : Option String)
      (reqAt : Nat) (appAt : Option Nat),
      ipAccessDecision none r = .deny 403 needsApprovalMsg
      ∧ ipAccessDecision (some ⟨idv, ipv, .PENDING, note, reqAt, appAt⟩) r
          = .deny 403 waitingApprovalMsg
      ∧ ipAccessDecision (some ⟨idv, ipv, .BLACKLIST, note, reqAt, appAt⟩) r
          = .deny 403 (pickQuote r)
      ∧ pickQuote r ∈ BLACKLIST_QUOTES
      ∧ pickQuote r ≠ waitingApprovalMsg
      ∧ ipAccessDecision (some ⟨idv, ipv, .WHITELIST, note, reqAt, appAt⟩) r
          = .pass := by
  intro r idv ipv note reqAt appAt
  exact ⟨rfl, rfl, rfl, pickQuote_mem r, pickQuote_ne_waiting r, rfl⟩

/-- C3 witness: the gate's decisions at a concrete random draw and concrete
entry fields. -/
theorem ipGate_decision_exact_witness :
    ipAccessDecision none ⟨2, by decide⟩ = .deny 403 needsApprovalMsg
    ∧ ipAccessDecision (some ⟨"w1", "198.51.100.7", .PENDING, none, 0, none⟩)
        ⟨2, by decide⟩ = .deny 403 waitingApprovalMsg
    ∧ ipAccessDecision (some ⟨"w1", "198.51.100.7", .BLACKLIST, none, 0, none⟩)
        ⟨2, by decide⟩ = .deny 403 (pickQuote ⟨2, by decide⟩)
    ∧ pickQuote ⟨2, by decide⟩ ∈ BLACKLIST_QUOTES
    ∧ pickQuote ⟨2, by decide⟩ ≠ waitingApprovalMsg
    ∧ ipAccessDecision (some ⟨"w1", "198.51.100.7", .WHITELIST, none, 0, none⟩)
        ⟨2, by decide⟩ = .pass :=
  ipGate_decision_exact ⟨2, by decide⟩ "w1" "198.51.100.7" none 0 none

/-- C4: any internal error while consulting the ledger fails open — the
middleware admits the request regardless of the error and of the random
draw. -/
theorem ledger_error_fails_open :
    ∀ (err : String) (r : Fin BLACKLIST_QUOTES.length),
      ipAccessMiddlewareRun (.error err) r = .pass := by
  intro err r
  rfl

/-- If a predicate finds nothing in the first list, searching the
concatenation searches the second list. -/
lemma find?_append_of_none {α : Type} {p : α → Bool} {l1 l2 : List α}
    (h : l1.find? p = none) : (l1 ++ l2).find? p = l2.find? p := by
  induction l1 with
  | nil => rfl
  | cons a l ih =>
    simp only [List.cons_append, List.find?_cons] at h ⊢
    cases hpa : p a with
    | true => simp [hpa] at h
    | false =>
      simp only [hpa] at h ⊢
      exact ih h

/-- C5: requestIp is an idempotent create-or-fetch: with no entry for the IP
it creates a Pending entry (appended to the ledger) and returns it; with an
existing entry it returns that entry and leaves the ledger untouched; and a
second request for the same IP changes nothing and returns the same entry. -/
theorem requestIp_create_or_fetch (l : Ledger) (now1 now2 : Nat)
    (id1 id2 ip : String) (n1 n2 : Option String) :
    (findUniqueIp l ip = none →
      requestIp l now1 id1 ip n1
        = (createEntry now1 id1 ip n1, l ++ [createEntry now1 id1 ip n1])
      ∧ (createEntry now1 id1 ip n1).status = .PENDING)
    ∧ (∀ e, findUniqueIp l ip = some e → requestIp l now1 id1 ip n1 = (e, l))
    ∧ requestIp (requestIp l now1 id1 ip n1).2 now2 id2 ip n2
        = ((requestIp l now1 id1 ip n1).1, (requestIp l now1 id1 ip n1).2) := by
  refine ⟨?_, ?_, ?_⟩
  · intro hnone
    rw [requestIp, hnone]
    exact ⟨rfl, rfl⟩
  · intro e he
    rw [requestIp, he]
  · cases hfind : findUniqueIp l ip with
    | some e =>
      have h1 : requestIp l now1 id1 ip n1 = (e, l) := by
        simp only [requestIp, hfind]
      rw [h1]
      simp only [requestIp, hfind]
    | none =>
      have h1 : requestIp l now1 id1 ip n1
          = (createEntry now1 id1 ip n1, l ++ [createEntry now1 id1 ip n1]) := by
        simp only [requestIp, hfind]
      rw [h1]
      have hagain : findUniqueIp (l ++ [createEntry now1 id1 ip n1]) ip
          = some (createEntry now1 id1 ip n1) := by
        simp only [findUniqueIp]
        rw [find?_append_of_none hfind]
        simp [createEntry]
      simp only [requestIp, hagain]

/-- C5 witness: on the empty ledger, requesting an unseen IP creates the
Pending entry and appends it. -/
theorem requestIp_create_or_fetch_witness :
    requestIp [] 5 "a1" "198.51.100.3" none
      = (createEntry 5 "a1" "198.51.100.3" none,
         [] ++ [createEntry 5 "a1" "198.51.100.3" none])
    ∧ (createEntry 5 "a1" "198.51.100.3" none).status = .PENDING :=
  (requestIp_create_or_fetch [] 5 6 "a1" "a2" "198.51.100.3" none none).1 rfl

/-- C6: updateStatus sets the status, stamps approvedAt with the current time
exactly on a transition into Whitelist (leaving it unchanged otherwise), and
changes no other field. -/
theorem updateStatus_frame (e : IpEntry) (s : IpStatus) (now : Nat) :
    (updateStatus e s now).status = s
    ∧ (updateStatus e s now).approvedAt
        = (if s = .WHITELIST then some now else e.approvedAt)
    ∧ (updateStatus e s now).ip = e.ip
    ∧ (updateStatus e s now).note = e.note
    ∧ (updateStatus e s now).requestedAt = e.requestedAt
    ∧ (updateStatus e s now).id = e.id := by
  cases s <;> simp [updateStatus]

/-- C1 (code bug): a job published by publishArticleJob carries no
x-retry-count header, and the retry path requeues the message with its
headers unchanged, so at every consecutive failure the consumer still reads
retryCount = 0, schedules a 2^0-second delayed requeue, and never takes the
reject branch — the third failure is requeued like the first, contradicting
the spec's bounded 3-retry contract (and the code's own "attempt n/3" /
"Max retries reached" logging). -/
theorem retryCount_never_increments :
    ∀ n : Nat,
      headersAfterFailures n = []
      ∧ getRetryCount (headersAfterFailures n) = 0
      ∧ failureDecision (headersAfterFailures n) = .requeueAfter 1000
      ∧ decide (failureDecision (headersAfterFailures n) = .reject) = false := by
  intro n
  have hnil : headersAfterFailures n = [] := by
    induction n with
    | zero => rfl
    | succ k ih => simpa [headersAfterFailures, requeuedHeaders] using ih
  refine ⟨hnil, ?_, ?_, ?_⟩ <;> rw [hnil] <;> decide

/-- C2 counterexample: a 6th request in the window (5 prior, limit 5) from a
whitelisted IP is rejected by the rate limit, yet the Access Ledger lookup
has already happened (the IP gate runs first), contradicting the claim that
such a request is rejected without any Access Ledger lookup and that the
rate limit is evaluated before the IP access check. -/
theorem rateLimit_after_ipGate_counterexample :
    (runPublicGenerate (.ok (some whitelistedEntry)) ⟨0, by decide⟩ 5 5).outcome
        = .rateLimited
    ∧ (runPublicGenerate (.ok (some whitelistedEntry)) ⟨0, by decide⟩ 5 5).ledgerLookups
        = 1
    ∧ generatePublicPipeline = [.ipAccessCheck, .rateLimitCheck, .routeHandler] := by
  refine ⟨by decide, by decide, by decide⟩

/-- C2 amended: the IP access check is evaluated before the rate limit on
both public generation endpoints; a request admitted by the IP gate that
exceeds the rate limit is rejected with the rate-limit error and never
reaches the Broker, but the Access Ledger lookup has already been performed
once. -/
theorem rateLimited_no_broker (lookup : Except String (Option IpEntry))
    (r : Fin BLACKLIST_QUOTES.length) (windowCount maxReq : Nat)
    (hpass : ipAccessMiddlewareRun lookup r = .pass)
    (hexceed : maxReq ≤ windowCount) :
    generatePublicPipeline = [.ipAccessCheck, .rateLimitCheck, .routeHandler]
    ∧ novelGeneratePipeline = [.ipAccessCheck, .rateLimitCheck, .routeHandler]
    ∧ (runPublicGenerate lookup r windowCount maxReq).outcome = .rateLimited
    ∧ (runPublicGenerate lookup r windowCount maxReq).brokerPublishes = 0
    ∧ (runPublicGenerate lookup r windowCount maxReq).ledgerLookups = 1 := by
  have hrun : runPublicGenerate lookup r windowCount maxReq
      = { outcome := .rateLimited, ledgerLookups := 1, brokerPublishes := 0 } := by
    simp [runPublicGenerate, hpass, rateLimitExceeded, hexceed]
  exact ⟨rfl, rfl, by rw [hrun], by rw [hrun], by rw [hrun]⟩

/-- C2 amended, witness: a whitelisted IP's 6th request in the window with
limit 5 is rate-limited, performs one ledger lookup, and never reaches the
Broker. -/
theorem rateLimited_no_broker_witness :
    (runPublicGenerate (.ok (some whitelistedEntry)) ⟨1, by decide⟩ 5 5).outcome
        = .rateLimited
    ∧ (runPublicGenerate (.ok (some whitelistedEntry)) ⟨1, by decide⟩ 5 5).brokerPublishes
        = 0
    ∧ (runPublicGenerate (.ok (some whitelistedEntry)) ⟨1, by decide⟩ 5 5).ledgerLookups
        = 1 :=
  ⟨(rateLimited_no_broker (.ok (some whitelistedEntry)) ⟨1, by decide⟩ 5 5
      rfl (le_refl 5)).2.2.1,
   (rateLimited_no_broker (.ok (some whitelistedEntry)) ⟨1, by decide⟩ 5 5
      rfl (le_refl 5)).2.2.2.1,
   (rateLimited_no_broker (.ok (some whitelistedEntry)) ⟨1, by decide⟩ 5 5
      rfl (le_refl 5)).2.2.2.2⟩

/-- C7: with a secret configured, the signature header of the assembled
webhook request is the hex HMAC-SHA256, keyed by the secret, of exactly the
body string sent; and at secret "s" and body the serialization of the object
with field a mapped to 1, it equals the reference HMAC-SHA256 value
(computed independently with two reference implementations). -/
theorem webhook_signature_matches_body :
    ∀ (url secret : String) (tp : Option String) (bodyString : String),
      (sendWebhookRequest url (some secret) tp bodyString).signature
        = some (hmacSha256Hex secret (sendWebhookRequest url (some secret) tp bodyString).body)
      ∧ (sendWebhookRequest url (some secret) tp bodyString).body = bodyString
      ∧ hmacSha256Hex "s" "\x7b\"a\":1\x7d"
        = "37beaf650f70b40ec9706929c2e9d835cbd63729988f48781e6383a147215f07" := by
  intro url secret tp bodyString
  exact ⟨rfl, rfl, by decide⟩

/-- C8: when generation succeeded, processArticleJob returns normally
whatever the webhook HTTP outcome (timeout, non-2xx, network error,
unreachable target), so the consumer acks the message; no retry or failure
reaches the broker because of the webhook. -/
theorem webhook_failure_never_blocks_ack :
    ∀ (art : Article) (webhookUrl : Option String) (http : WebhookHttpOutcome)
      (hdrs : MsgHeaders),
      (processArticleJob (.ok art) webhookUrl http).result = .ok ()
      ∧ consumerStep (processArticleJob (.ok art) webhookUrl http).result hdrs
          = .ackMsg := by
  intro art webhookUrl http hdrs
  cases webhookUrl <;> cases http <;> exact ⟨rfl, rfl⟩

/-- C10: the durable queue is declared with no dead-letter exchange, no
dead-letter routing key and no extra arguments, so a message the consumer
rejects with requeue=false (as the code does once it reads a retry count of
at least 3) is permanently dropped by the broker, with no dead-letter
destination to observe or recover it. -/
theorem rejected_job_dropped :
    articleQueueOptions.deadLetterExchange = none
    ∧ articleQueueOptions.deadLetterRoutingKey = none
    ∧ articleQueueOptions.arguments = []
    ∧ articleQueueOptions.durable = true
    ∧ rejectedFate articleQueueOptions = .dropped
    ∧ failureDecision [("x-retry-count", 3)] = .reject := by
  exact ⟨rfl, rfl, rfl, rfl, rfl, by decide⟩

/-- Numeric value of a digit list, most significant first. -/
def valOfDigits (ds : List Nat) : Nat := ds.foldl (fun a d => 10 * a + d) 0

/-- The decimal digit list of n evaluates back to n. -/
lemma valOfDigits_natDecDigits : ∀ n : Nat, valOfDigits (natDecDigits n) = n := by
  intro n
  induction n using Nat.strong_induction_on with
  | _ n ih =>
    unfold natDecDigits
    split
    · simp only [valOfDigits, List.foldl_cons, List.foldl_nil]
      omega
    · rename_i h
      have hlt : n / 10 < n := Nat.div_lt_self (by omega) (by omega)
      have hv := ih (n / 10) hlt
      simp only [valOfDigits] at hv ⊢
      rw [List.foldl_append, hv]
      simp only [List.foldl_cons, List.foldl_nil]
      omega

/-- Every decimal digit produced is below 10. -/
lemma natDecDigits_lt_ten : ∀ n : Nat, ∀ d ∈ natDecDigits n, d < 10 := by
  intro n
  induction n using Nat.strong_induction_on with
  | _ n ih =>
    unfold natDecDigits
    split
    · rename_i h
      intro d hd
      simp only [List.mem_singleton] at hd
      omega
    · rename_i h
      intro d hd
      rw [List.mem_append] at hd
      cases hd with
      | inl hd => exact ih (n / 10) (Nat.div_lt_self (by omega) (by omega)) d hd
      | inr hd =>
        simp only [List.mem_singleton] at hd
        omega

/-- Digit characters of digit values round-trip through their code points. -/
lemma digitChar_toNat : ∀ d : Nat, d < 10 → (digitChar d).toNat = 48 + d := by
  decide

/-- A digit character is never the dash separator. -/
lemma digitChar_ne_dash : ∀ d : Nat, d < 10 → digitChar d ≠ '-' := by
  decide

/-- digitChar is injective on digit values. -/
lemma map_digitChar_injective : ∀ (l1 l2 : List Nat),
    (∀ d ∈ l1, d < 10) → (∀ d ∈ l2, d < 10) →
    l1.map digitChar = l2.map digitChar → l1 = l2 := by
  intro l1
  induction l1 with
  | nil =>
    intro l2 _ _ h
    cases l2 with
    | nil => rfl
    | cons b t => simp at h
  | cons a l ih =>
    intro l2 h1 h2 h
    cases l2 with
    | nil => simp at h
    | cons b t2 =>
      simp only [List.map_cons, List.cons.injEq] at h
      obtain ⟨hab, ht⟩ := h
      have ha : a < 10 := h1 a (by simp)
      have hb : b < 10 := h2 b (by simp)
      have hEq : a = b := by
        have hcn := congrArg Char.toNat hab
        rw [digitChar_toNat a ha, digitChar_toNat b hb] at hcn
        omega
      subst hEq
      rw [ih t2 (fun d hd => h1 d (by simp [hd])) (fun d hd => h2 d (by simp [hd])) ht]

/-- The rendered timestamp contains no dash. -/
lemma dash_not_mem_digits (n : Nat) : '-' ∉ (natDecDigits n).map digitChar := by
  intro hmem
  rw [List.mem_map] at hmem
  obtain ⟨d, hd, hcd⟩ := hmem
  exact digitChar_ne_dash d (natDecDigits_lt_ten n d hd) hcd

/-- Splitting at a dash is unambiguous when neither left part contains one. -/
lemma append_dash_injective : ∀ (l1 l2 r1 r2 : List Char),
    '-' ∉ l1 → '-' ∉ l2 → l1 ++ '-' :: r1 = l2 ++ '-' :: r2 →
    l1 = l2 ∧ r1 = r2 := by
  intro l1
  induction l1 with
  | nil =>
    intro l2 r1 r2 _ h2 h
    cases l2 with
    | nil => simpa using h
    | cons b t =>
      simp only [List.nil_append, List.cons_append, List.cons.injEq] at h
      obtain ⟨hb, -⟩ := h
      subst hb
      exact absurd (List.mem_cons_self _ _) h2
  | cons a t ih =>
    intro l2 r1 r2 h1 h2 h
    cases l2 with
    | nil =>
      simp only [List.cons_append, List.nil_append, List.cons.injEq] at h
      obtain ⟨ha, -⟩ := h
      subst ha
      exact absurd (List.mem_cons_self _ _) h1
    | cons b t2 =>
      simp only [List.cons_append, List.cons.injEq] at h
      obtain ⟨hab, ht⟩ := h
      subst hab
      have h1' : '-' ∉ t := fun hm => h1 (List.mem_cons_of_mem _ hm)
      have h2' : '-' ∉ t2 := fun hm => h2 (List.mem_cons_of_mem _ hm)
      obtain ⟨he, hr⟩ := ih t2 r1 r2 h1' h2' ht
      exact ⟨by rw [he], hr⟩

/-- C9: the job id built at publish time is injective in the observed
timestamp and random suffix: two publish calls return the same id exactly
when they observed the same `Date.now()` value and the same random suffix,
so distinct observations always yield distinct jobIds. -/
theorem jobId_injective (t1 t2 : Nat) (s1 s2 : String) :
    makeJobId t1 s1 = makeJobId t2 s2 ↔ (t1 = t2 ∧ s1 = s2) := by
  constructor
  · intro h
    have hdata : makeJobIdChars t1 s1.data = makeJobIdChars t2 s2.data :=
      congrArg String.data h
    unfold makeJobIdChars at hdata
    rw [List.append_assoc, List.append_assoc] at hdata
    have hcancel := List.append_cancel_left hdata
    obtain ⟨hdig, hsuf⟩ := append_dash_injective _ _ _ _
      (dash_not_mem_digits t1) (dash_not_mem_digits t2) hcancel
    have hds : natDecDigits t1 = natDecDigits t2 :=
      map_digitChar_injective _ _ (natDecDigits_lt_ten t1) (natDecDigits_lt_ten t2) hdig
    have ht : t1 = t2 := by
      have hval := congrArg valOfDigits hds
      rwa [valOfDigits_natDecDigits, valOfDigits_natDecDigits] at hval
    refine ⟨ht, ?_⟩
    cases s1
    cases s2
    exact congrArg String.mk hsuf
  · rintro ⟨rfl, rfl⟩
    rfl

/-- C9 witness: two publish calls one millisecond apart with the same random
suffix yield ids that are equal exactly when the timestamps agree — which
they do not. -/
theorem jobId_injective_witness :
    makeJobId 1700000000000 "k3x9" = makeJobId 1700000000001 "k3x9" ↔
      (1700000000000 = 1700000000001 ∧ ("k3x9" : String) = "k3x9") :=
  jobId_injective 1700000000000 1700000000001 "k3x9" "k3x9"

end Scraper
